import Mathlib

/-!
Verification development for the CatFlap pet-door controller (src/src/main.cpp).

The embedding below translates the core of the firmware into Lean:
the Wiegand frame decoder, the credential lookup, the per-branch logic of
the polling control loop (frame processing, door-swing extension,
locked-open detection, re-lock), the interrupt handlers, and the
startup configuration-integrity logic.

Machine integers are modelled as Nat with explicit truncation where the
C code can overflow (uint8_t bit counters, the uint64_t bit buffer).
The volatile uint16_t bitmask named state in the source is modelled as a
Nat together with the literal mask constants of the source; the C
expression '~m' (complement of an int) is modelled by cNot, the 32-bit
complement, which agrees with the C promotion on every bit the program
stores.  Times are Nat: time_t values are non-negative for the whole
life of the device, and every comparison the source performs has the
same outcome under truncated subtraction (checked case by case at the
lemmas that use it).
-/

namespace CatFlap

/-- Constant CFG_NCATS of the source: size of the credential table. -/
def CFG_NCATS : ℕ := 7

/-- Constant MAGIC of the source: the config magic marker. -/
def MAGIC : ℕ := 0xd41d8cd5

/-- Constant WEIGAND_TIMEOUT of the source (ms). -/
def WEIGAND_TIMEOUT : ℕ := 20

/-- Constant DOOR_TIMEOUT_DEFAULT of the source (seconds). -/
def DOOR_TIMEOUT_DEFAULT : ℕ := 60

/-- Constant DOOR_SWING_TIMEOUT_DEFAULT of the source (seconds). -/
def DOOR_SWING_TIMEOUT_DEFAULT : ℕ := 3

/-- Credential flag CFG_CAT_EXIT of the source. -/
def CFG_CAT_EXIT : ℕ := 0x01

/-- Credential flag CFG_CAT_ENTRY of the source. -/
def CFG_CAT_ENTRY : ℕ := 0x02

/-- Bitmap state flag of the source. -/
def STATE_ENTRY_WEIGAND_DONE : ℕ := 0x0001

/-- Bitmap state flag of the source. -/
def STATE_EXIT_WEIGAND_DONE : ℕ := 0x0002

/-- Bitmap state flag of the source. -/
def STATE_DOOR_TRIGGER : ℕ := 0x0010

/-- Bitmap state flag of the source. -/
def STATE_ENTRY_OPEN : ℕ := 0x0080

/-- Bitmap state flag of the source. -/
def STATE_EXIT_OPEN : ℕ := 0x0100

/-- Bitmap state flag of the source. -/
def STATE_ENTRY_LOCKED_OPEN : ℕ := 0x0200

/-- Bitmap state flag of the source. -/
def STATE_EXIT_LOCKED_OPEN : ℕ := 0x0400

/-- The two reader directions, enum direction of the source. -/
inductive Direction where
  | EXIT
  | ENTRY
  deriving DecidableEq

/-- C bitmask test: state and mask is nonzero.  Models the C idiom
(state and M) used as a truth value. -/
def hasFlag (s m : ℕ) : Bool := s &&& m != 0

/-- The 32-bit complement, modelling the C operator on an int whose
value fits 32 bits; the program only ever complements small mask
constants and the 16-bit state word. -/
def cNot (m : ℕ) : ℕ := 0xFFFFFFFF ^^^ m

/-- Observable side effects of the control loop: calls of ntfy and of
the solenoid pulse sequences, abstracted to the identity of the call
site plus the credential data interpolated into the message. -/
inductive Event where
  | unknownCardNtfy (facilityCode cardCode : ℕ)
  | deniedNtfy (d : Direction) (facilityCode cardCode : ℕ)
  | accessNtfy (d : Direction) (facilityCode cardCode : ℕ)
  | lockedOpenNtfy (d : Direction)
  | unlockPulse (d : Direction)
  | lockPulse (d : Direction)
  deriving DecidableEq

/-- One slot of conf.cat: the fields the control logic reads.  The name
and topic strings are consumed only inside notification texts and are
abstracted away by the Event type. -/
structure Cat where
  facility : ℕ
  id : ℕ
  flags : ℕ
  deriving DecidableEq

/-- Function catNumber of the source: linear scan of the credential
table, first slot whose (facility, id) pair matches; returns the table
size when no slot matches.  checkCard runs the identical loop, so both
are embedded through this single definition. -/
def catNumber (cats : List Cat) (facilityCode cardCode : ℕ) : ℕ :=
  match cats with
  | [] => 0
  | c :: rest =>
    if c.facility = facilityCode ∧ c.id = cardCode then 0
    else catNumber rest facilityCode cardCode + 1

/-- The permission expression returned by checkCard:
(dir == EXIT and flags and CFG_CAT_EXIT) or (dir == ENTRY and flags and CFG_CAT_ENTRY). -/
def catAllows (d : Direction) (flags : ℕ) : Bool :=
  (d == Direction.EXIT && hasFlag flags CFG_CAT_EXIT) ||
  (d == Direction.ENTRY && hasFlag flags CFG_CAT_ENTRY)

/-- Function checkCard of the source.  Returns the int result
(-1 unknown, 0 deny, 1 permit) together with the side effects it
performs itself: on the unknown path the source calls debug and ntfy
before returning -1. -/
def checkCard (cats : List Cat) (d : Direction) (facilityCode cardCode : ℕ) :
    Int × List Event :=
  let i := catNumber cats facilityCode cardCode
  if i = cats.length then
    (-1, [Event.unknownCardNtfy facilityCode cardCode])
  else
    (if catAllows d ((cats.getD i ⟨0, 0, 0⟩).flags) then 1 else 0, [])

/-- Function weigandDecode of the source.  The C function takes the
output locations by pointer and writes them only in the 26-bit case;
this is modelled by threading the previous contents through and
returning them unchanged on the unsupported path. -/
def weigandDecode (facilityCode cardCode : ℕ) (bitCount dataBits : ℕ) :
    Bool × ℕ × ℕ :=
  match bitCount with
  | 26 => (true, (dataBits &&& 0x1FE0000) >>> 17, (dataBits &&& 0x1FFFE) >>> 1)
  | _ => (false, facilityCode, cardCode)

/-- Field extraction ascribed to the decoder by the specification text,
read literally: facilityCode = bits[23:16] and cardCode = bits[16:1]
with bit positions 1-indexed from the least-significant bit, so the
facility field occupies 1-indexed positions 16..23 (0-indexed 15..22)
and the card field occupies 1-indexed positions 1..16 (0-indexed 0..15). -/
def specClaimFacility (dataBits : ℕ) : ℕ := (dataBits >>> 15) &&& 0xFF

/-- Card-code extraction ascribed to the decoder by the specification
text, read literally; see specClaimFacility. -/
def specClaimCard (dataBits : ℕ) : ℕ := dataBits &&& 0xFFFF

/-- The mutable program state read or written by the control loop and
the interrupt handlers: the volatile global state bitmask, the loop's
static deadline and memo variables, the presence ledger, and the two
channel capture states.  The volatile doorTrigger timestamp is written
by ISR_DOOR but never read, and is omitted. -/
structure LoopState where
  st : ℕ
  entryCloseAt : ℕ
  exitCloseAt : ℕ
  entryCloseTime : ℕ
  exitCloseTime : ℕ
  lastFacilityCode : ℕ
  lastCardCode : ℕ
  catInOut : ℕ
  catTime : List ℕ
  entryDataBits : ℕ
  entryBitCount : ℕ
  entryLastBit : ℕ
  exitDataBits : ℕ
  exitBitCount : ℕ
  exitLastBit : ℕ
  deriving DecidableEq

/-- Startup state: state bitmask zero, statics zero-initialised,
ledger empty, both capture states empty. -/
def initState : LoopState :=
  { st := 0, entryCloseAt := 0, exitCloseAt := 0,
    entryCloseTime := 0, exitCloseTime := 0,
    lastFacilityCode := 0, lastCardCode := 0,
    catInOut := 0, catTime := List.replicate 7 0,
    entryDataBits := 0, entryBitCount := 0, entryLastBit := 0,
    exitDataBits := 0, exitBitCount := 0, exitLastBit := 0 }

/-- Function entryUnlock of the source: drives the entry solenoid open
(the pulse timing is a hardware contract, abstracted to one event) and
sets STATE_ENTRY_OPEN. -/
def entryUnlock (s : LoopState) : LoopState × List Event :=
  ({ s with st := s.st ||| STATE_ENTRY_OPEN }, [Event.unlockPulse Direction.ENTRY])

/-- Function exitUnlock of the source. -/
def exitUnlock (s : LoopState) : LoopState × List Event :=
  ({ s with st := s.st ||| STATE_EXIT_OPEN }, [Event.unlockPulse Direction.EXIT])

/-- Function entryLock of the source: drives the entry solenoid closed
and clears STATE_ENTRY_OPEN. -/
def entryLock (s : LoopState) : LoopState × List Event :=
  ({ s with st := s.st &&& cNot STATE_ENTRY_OPEN }, [Event.lockPulse Direction.ENTRY])

/-- Function exitLock of the source. -/
def exitLock (s : LoopState) : LoopState × List Event :=
  ({ s with st := s.st &&& cNot STATE_EXIT_OPEN }, [Event.lockPulse Direction.EXIT])

/-- Lines 287-290 of the source: a channel whose deadline is set and has
elapsed is flagged frame-ready.  millis is the sampled millisecond
counter. -/
def weigandDoneCheck (millis : ℕ) (s : LoopState) : LoopState :=
  let s1 :=
    if s.entryLastBit ≠ 0 ∧ s.entryLastBit ≤ millis then
      { s with st := s.st ||| STATE_ENTRY_WEIGAND_DONE }
    else s
  if s1.exitLastBit ≠ 0 ∧ s1.exitLastBit ≤ millis then
    { s1 with st := s1.st ||| STATE_EXIT_WEIGAND_DONE }
  else s1

/-- Lines 316-319 of the source: the unconditional reset of the entry
capture state after a completed frame was consumed. -/
def entryCaptureReset (s : LoopState) : LoopState :=
  { s with entryBitCount := 0, entryDataBits := 0, entryLastBit := 0,
           st := s.st &&& cNot STATE_ENTRY_WEIGAND_DONE }

/-- Lines 346-349 of the source: the exit-channel capture reset. -/
def exitCaptureReset (s : LoopState) : LoopState :=
  { s with exitBitCount := 0, exitDataBits := 0, exitLastBit := 0,
           st := s.st &&& cNot STATE_EXIT_WEIGAND_DONE }

/-- Lines 292-320 of the source: entry-channel frame processing.  The
branch decodes, and when the decode succeeded and the exit lock is not
open consults checkCard; on permit it unlocks, arms the close deadline,
and behind the last-credential test notifies and updates the ledger;
the capture state is reset whatever happened.  now models the time()
samples taken inside the branch. -/
def entryFrameBranch (cats : List Cat) (now : ℕ) (s : LoopState) :
    LoopState × List Event :=
  if hasFlag s.st STATE_ENTRY_WEIGAND_DONE then
    let d := weigandDecode 0 0 s.entryBitCount s.entryDataBits
    let facilityCode := d.2.1
    let cardCode := d.2.2
    let p :=
      if d.1 && hasFlag (cNot s.st) STATE_EXIT_OPEN then
        let ck := checkCard cats Direction.ENTRY facilityCode cardCode
        if ck.1 = 0 then
          (s, ck.2 ++ [Event.deniedNtfy Direction.ENTRY facilityCode cardCode])
        else if ck.1 = 1 then
          let u := entryUnlock s
          let s1 := { u.1 with entryCloseAt := now + DOOR_TIMEOUT_DEFAULT }
          let p2 :=
            if s1.lastFacilityCode != facilityCode && s1.lastCardCode != cardCode then
              let catNum := catNumber cats facilityCode cardCode
              let s2 :=
                if catNum < CFG_NCATS then
                  { s1 with catTime := s1.catTime.set catNum now,
                            catInOut := s1.catInOut ||| (1 <<< catNum) }
                else s1
              (s2, [Event.accessNtfy Direction.ENTRY facilityCode cardCode])
            else (s1, ([] : List Event))
          ({ p2.1 with lastFacilityCode := facilityCode, lastCardCode := cardCode },
            ck.2 ++ u.2 ++ p2.2)
        else (s, ck.2)
      else (s, ([] : List Event))
    (entryCaptureReset p.1, p.2)
  else (s, [])

/-- Lines 322-350 of the source: exit-channel frame processing,
symmetric to the entry branch; a permitted exit clears the ledger bit
instead of setting it. -/
def exitFrameBranch (cats : List Cat) (now : ℕ) (s : LoopState) :
    LoopState × List Event :=
  if hasFlag s.st STATE_EXIT_WEIGAND_DONE then
    let d := weigandDecode 0 0 s.exitBitCount s.exitDataBits
    let facilityCode := d.2.1
    let cardCode := d.2.2
    let p :=
      if d.1 && hasFlag (cNot s.st) STATE_ENTRY_OPEN then
        let ck := checkCard cats Direction.EXIT facilityCode cardCode
        if ck.1 = 0 then
          (s, ck.2 ++ [Event.deniedNtfy Direction.EXIT facilityCode cardCode])
        else if ck.1 = 1 then
          let u := exitUnlock s
          let s1 := { u.1 with exitCloseAt := now + DOOR_TIMEOUT_DEFAULT }
          let p2 :=
            if s1.lastFacilityCode != facilityCode && s1.lastCardCode != cardCode then
              let catNum := catNumber cats facilityCode cardCode
              let s2 :=
                if catNum < CFG_NCATS then
                  { s1 with catTime := s1.catTime.set catNum now,
                            catInOut := s1.catInOut &&& cNot (1 <<< catNum) }
                else s1
              (s2, [Event.accessNtfy Direction.EXIT facilityCode cardCode])
            else (s1, ([] : List Event))
          ({ p2.1 with lastFacilityCode := facilityCode, lastCardCode := cardCode },
            ck.2 ++ u.2 ++ p2.2)
        else (s, ck.2)
      else (s, ([] : List Event))
    (exitCaptureReset p.1, p.2)
  else (s, [])

/-- Lines 351-361 of the source: the door-sensor trigger handler.  For
every direction whose lock is currently open the close deadline is set
to now + DOOR_SWING_TIMEOUT, then the trigger flag is cleared. -/
def doorTriggerBranch (now : ℕ) (s : LoopState) : LoopState :=
  if hasFlag s.st STATE_DOOR_TRIGGER then
    let s1 :=
      if hasFlag s.st STATE_ENTRY_OPEN then
        { s with entryCloseAt := now + DOOR_SWING_TIMEOUT_DEFAULT }
      else s
    let s2 :=
      if hasFlag s.st STATE_EXIT_OPEN then
        { s1 with exitCloseAt := now + DOOR_SWING_TIMEOUT_DEFAULT }
      else s1
    { s2 with st := s2.st &&& cNot STATE_DOOR_TRIGGER }
  else s

/-- Lines 362-367 of the source: entry locked-open detection.  If the
entry lock is closed, not already flagged locked-open, was re-locked
less than two seconds ago, and the door sensor reads open, the branch
re-unlocks, notifies, and sets STATE_ENTRY_LOCKED_OPEN. -/
def entryLockedOpenBranch (now : ℕ) (sensor : Bool) (s : LoopState) :
    LoopState × List Event :=
  if hasFlag (cNot s.st) STATE_ENTRY_OPEN ∧ hasFlag (cNot s.st) STATE_ENTRY_LOCKED_OPEN
      ∧ now - s.entryCloseTime < 2 ∧ sensor then
    let u := entryUnlock s
    ({ u.1 with st := u.1.st ||| STATE_ENTRY_LOCKED_OPEN },
      u.2 ++ [Event.lockedOpenNtfy Direction.ENTRY])
  else (s, [])

/-- Lines 368-373 of the source: exit locked-open detection. -/
def exitLockedOpenBranch (now : ℕ) (sensor : Bool) (s : LoopState) :
    LoopState × List Event :=
  if hasFlag (cNot s.st) STATE_EXIT_OPEN ∧ hasFlag (cNot s.st) STATE_EXIT_LOCKED_OPEN
      ∧ now - s.exitCloseTime < 2 ∧ sensor then
    let u := exitUnlock s
    ({ u.1 with st := u.1.st ||| STATE_EXIT_LOCKED_OPEN },
      u.2 ++ [Event.lockedOpenNtfy Direction.EXIT])
  else (s, [])

/-- Lines 376-385 of the source: entry re-lock.  When the entry lock is
open, the sensor reads closed, and the close deadline has passed, the
branch locks, clears the credential memo, records the re-lock time only
when the episode was not locked-open, clears the deadline, and clears
both the open and the locked-open flag with the source's combined mask
(and of the two complements). -/
def entryRelockBranch (now : ℕ) (sensor : Bool) (s : LoopState) :
    LoopState × List Event :=
  if hasFlag s.st STATE_ENTRY_OPEN ∧ sensor = false ∧ s.entryCloseAt < now then
    let l := entryLock s
    let s1 := { l.1 with lastFacilityCode := 0, lastCardCode := 0 }
    let s2 :=
      if hasFlag (cNot s1.st) STATE_ENTRY_LOCKED_OPEN then
        { s1 with entryCloseTime := now }
      else s1
    let s3 := { s2 with entryCloseAt := 0 }
    ({ s3 with st := s3.st &&& (cNot STATE_ENTRY_OPEN &&& cNot STATE_ENTRY_LOCKED_OPEN) },
      l.2)
  else (s, [])

/-- Lines 386-395 of the source: exit re-lock. -/
def exitRelockBranch (now : ℕ) (sensor : Bool) (s : LoopState) :
    LoopState × List Event :=
  if hasFlag s.st STATE_EXIT_OPEN ∧ sensor = false ∧ s.exitCloseAt < now then
    let l := exitLock s
    let s1 := { l.1 with lastFacilityCode := 0, lastCardCode := 0 }
    let s2 :=
      if hasFlag (cNot s1.st) STATE_EXIT_LOCKED_OPEN then
        { s1 with exitCloseTime := now }
      else s1
    let s3 := { s2 with exitCloseAt := 0 }
    ({ s3 with st := s3.st &&& (cNot STATE_EXIT_OPEN &&& cNot STATE_EXIT_LOCKED_OPEN) },
      l.2)
  else (s, [])

/-- Environment samples consumed by one iteration of loop(): the source
calls millis(), time(NULL) and digitalRead(PIN_DOOR_SENSOR) afresh at
each use site; the few time() calls inside one branch are modelled as a
single per-branch sample. -/
structure LoopEnv where
  millisNow : ℕ
  nowEntry : ℕ
  nowExit : ℕ
  nowTrigger : ℕ
  nowEntryLO : ℕ
  sensorEntryLO : Bool
  nowExitLO : ℕ
  sensorExitLO : Bool
  nowEntryRelock : ℕ
  sensorEntryRelock : Bool
  nowExitRelock : ℕ
  sensorExitRelock : Bool

/-- One iteration of loop() of the source, branch by branch in program
order (the OTA, web-server and boot-notification lines touch none of
the modelled state; the delay(500) taken while a direction is
locked-open changes no state either). -/
def loopIter (cats : List Cat) (e : LoopEnv) (s : LoopState) :
    LoopState × List Event :=
  let s0 := weigandDoneCheck e.millisNow s
  let p1 := entryFrameBranch cats e.nowEntry s0
  let p2 := exitFrameBranch cats e.nowExit p1.1
  let s3 := doorTriggerBranch e.nowTrigger p2.1
  let p4 := entryLockedOpenBranch e.nowEntryLO e.sensorEntryLO s3
  let p5 := exitLockedOpenBranch e.nowExitLO e.sensorExitLO p4.1
  let p6 := entryRelockBranch e.nowEntryRelock e.sensorEntryRelock p5.1
  let p7 := exitRelockBranch e.nowExitRelock e.sensorExitRelock p6.1
  (p7.1, p1.2 ++ p2.2 ++ p4.2 ++ p5.2 ++ p6.2 ++ p7.2)

/-- ISR_ENTRY_D0 of the source: append a zero bit to the entry capture
state and re-arm the inter-bit deadline, unless the frame-ready flag is
set.  The uint8_t counter and uint64_t buffer wrap as in C. -/
def isrEntryD0 (millis : ℕ) (s : LoopState) : LoopState :=
  if hasFlag (cNot s.st) STATE_ENTRY_WEIGAND_DONE then
    { s with entryLastBit := millis + WEIGAND_TIMEOUT,
             entryBitCount := (s.entryBitCount + 1) % 256,
             entryDataBits := (s.entryDataBits <<< 1) % 2 ^ 64 }
  else s

/-- ISR_ENTRY_D1 of the source: append a one bit. -/
def isrEntryD1 (millis : ℕ) (s : LoopState) : LoopState :=
  if hasFlag (cNot s.st) STATE_ENTRY_WEIGAND_DONE then
    { s with entryLastBit := millis + WEIGAND_TIMEOUT,
             entryBitCount := (s.entryBitCount + 1) % 256,
             entryDataBits := (s.entryDataBits <<< 1) % 2 ^ 64 ||| 1 }
  else s

/-- ISR_EXIT_D0 of the source. -/
def isrExitD0 (millis : ℕ) (s : LoopState) : LoopState :=
  if hasFlag (cNot s.st) STATE_EXIT_WEIGAND_DONE then
    { s with exitLastBit := millis + WEIGAND_TIMEOUT,
             exitBitCount := (s.exitBitCount + 1) % 256,
             exitDataBits := (s.exitDataBits <<< 1) % 2 ^ 64 }
  else s

/-- ISR_EXIT_D1 of the source. -/
def isrExitD1 (millis : ℕ) (s : LoopState) : LoopState :=
  if hasFlag (cNot s.st) STATE_EXIT_WEIGAND_DONE then
    { s with exitLastBit := millis + WEIGAND_TIMEOUT,
             exitBitCount := (s.exitBitCount + 1) % 256,
             exitDataBits := (s.exitDataBits <<< 1) % 2 ^ 64 ||| 1 }
  else s

/-- ISR_DOOR of the source: set the door-trigger flag (the timestamp it
also stores is never read). -/
def isrDoor (s : LoopState) : LoopState :=
  { s with st := s.st ||| STATE_DOOR_TRIGGER }

/-- One atomic step of the system: either a full loop() iteration with
some environment sample, or one interrupt handler firing between
iterations. -/
inductive StepChoice where
  | loopStep (e : LoopEnv)
  | entryBit0 (millis : ℕ)
  | entryBit1 (millis : ℕ)
  | exitBit0 (millis : ℕ)
  | exitBit1 (millis : ℕ)
  | doorPulse

/-- State transformer of one step. -/
def stepFn (cats : List Cat) : StepChoice → LoopState → LoopState
  | StepChoice.loopStep e, s => (loopIter cats e s).1
  | StepChoice.entryBit0 m, s => isrEntryD0 m s
  | StepChoice.entryBit1 m, s => isrEntryD1 m s
  | StepChoice.exitBit0 m, s => isrExitD0 m s
  | StepChoice.exitBit1 m, s => isrExitD1 m s
  | StepChoice.doorPulse, s => isrDoor s

/-- Transition relation of the system. -/
def StepRel (cats : List Cat) (s t : LoopState) : Prop :=
  ∃ c : StepChoice, stepFn cats c s = t

/-- A state is reachable when some finite run from the startup state
produces it. -/
def Reachable (cats : List Cat) (t : LoopState) : Prop :=
  Relation.ReflTransGen (StepRel cats) initState t

/-- Execute a list of steps in order. -/
def run (cats : List Cat) (tr : List StepChoice) (s : LoopState) : LoopState :=
  tr.foldl (fun s c => stepFn cats c s) s

/-!
Configuration record and startup integrity check (struct cfg,
configDefault, configSave, configInit of the source).  The EEPROM byte
copy performed by configInit and configSave is modelled by an explicit
serialisation of the packed record layout; the checksum is the
CRC-16/CCITT-FALSE of FastCRC over every record byte preceding the
trailing 16-bit crc field.
-/

/-- One shift-and-conditionally-xor round of CRC-16/CCITT-FALSE,
polynomial 0x1021, state truncated to 16 bits. -/
def crc16ccittRound (c : ℕ) : ℕ :=
  if hasFlag c 0x8000 then ((c <<< 1) ^^^ 0x1021) &&& 0xFFFF
  else (c <<< 1) &&& 0xFFFF

/-- Fold one message byte into the CRC state (MSB-first, unreflected). -/
def crc16ccittByte (c b : ℕ) : ℕ :=
  (List.range 8).foldl (fun acc _ => crc16ccittRound acc) (c ^^^ ((b &&& 0xFF) <<< 8))

/-- CRC-16/CCITT-FALSE of a byte list, initial value 0xFFFF, no final
xor: the ccitt function of the FastCRC16 library used by the source. -/
def crc16ccitt (bytes : List ℕ) : ℕ := bytes.foldl crc16ccittByte 0xFFFF

/-- Little-endian 16-bit serialisation (the target is little-endian). -/
def le16 (n : ℕ) : List ℕ := [n % 256, n / 256 % 256]

/-- Little-endian 32-bit serialisation. -/
def le32 (n : ℕ) : List ℕ :=
  [n % 256, n / 256 % 256, n / 65536 % 256, n / 16777216 % 256]

/-- A char-array field of the packed struct: the stored bytes truncated
or zero-padded to the declared width. -/
def fixStr (n : ℕ) (s : List ℕ) : List ℕ :=
  s.take n ++ List.replicate (n - (s.take n).length) 0

/-- One slot of the packed cat array inside struct cfg. -/
structure CatCfg where
  name : List ℕ
  topic : List ℕ
  facility : ℕ
  id : ℕ
  flags : ℕ
  deriving DecidableEq

/-- The ntfy sub-struct of struct cfg. -/
structure NtfyCfg where
  url : List ℕ
  topic : List ℕ
  username : List ℕ
  password : List ℕ
  deriving DecidableEq

/-- Struct cfg of the source (packed, trailing 16-bit crc). -/
structure Cfg where
  magic : ℕ
  hostname : List ℕ
  ssid : List ℕ
  wpakey : List ℕ
  ntpserver : List ℕ
  timezone : List ℕ
  flags : ℕ
  cat : List CatCfg
  ntfy : NtfyCfg
  crc : ℕ
  deriving DecidableEq

/-- Packed layout of one cat slot: name[20], topic[64], uint8 facility,
uint16 id, uint8 flags. -/
def serializeCat (c : CatCfg) : List ℕ :=
  fixStr 20 c.name ++ fixStr 64 c.topic ++ [c.facility % 256] ++ le16 c.id ++
    [c.flags % 256]

/-- A cat slot whose bytes are all zero. -/
def blankCatCfg : CatCfg := ⟨[], [], 0, 0, 0⟩

/-- The packed cat array always holds exactly CFG_NCATS slots. -/
def padCats (l : List CatCfg) : List CatCfg :=
  l.take 7 ++ List.replicate (7 - (l.take 7).length) blankCatCfg

/-- Every byte of struct cfg that precedes the trailing crc field, in
declaration order: magic, hostname[33], ssid[64], wpakey[64],
ntpserver[64], timezone[32], uint8 flags, cat[7], ntfy strings. -/
def serializeBody (c : Cfg) : List ℕ :=
  le32 c.magic ++ fixStr 33 c.hostname ++ fixStr 64 c.ssid ++ fixStr 64 c.wpakey ++
    fixStr 64 c.ntpserver ++ fixStr 32 c.timezone ++ [c.flags % 256] ++
    ((padCats c.cat).map serializeCat).flatten ++
    fixStr 64 c.ntfy.url ++ fixStr 64 c.ntfy.topic ++
    fixStr 16 c.ntfy.username ++ fixStr 16 c.ntfy.password

/-- The checksum configSave stores and configInit recomputes:
CRC-16/CCITT-FALSE over all record bytes preceding the crc field. -/
def crcOf (c : Cfg) : ℕ := crc16ccitt (serializeBody c)

/-- Byte values of the default timezone string EST5EDT,M3.2.0,M11.1.0. -/
def tzDefaultChars : List ℕ :=
  (['E', 'S', 'T', '5', 'E', 'D', 'T', ',', 'M', '3', '.', '2', '.', '0', ',',
    'M', '1', '1', '.', '1', '.', '0'].map Char.toNat)

/-- Byte values of the default NTP server string pool.ntp.org. -/
def ntpDefaultChars : List ℕ :=
  (['p', 'o', 'o', 'l', '.', 'n', 't', 'p', '.', 'o', 'r', 'g'].map Char.toNat)

/-- Function configDefault of the source: zero the whole record, then
set the hostname from the MAC address text (bounded copy into a 32-byte
window), the magic marker, the default timezone and NTP server, and
empty SSID and WPA key.  mac is the MAC address text supplied by the
platform. -/
def configDefault (mac : List ℕ) : Cfg :=
  { magic := MAGIC, hostname := mac.take 31, ssid := [], wpakey := [],
    ntpserver := ntpDefaultChars, timezone := tzDefaultChars, flags := 0,
    cat := List.replicate CFG_NCATS blankCatCfg,
    ntfy := ⟨[], [], [], []⟩, crc := 0 }

/-- Function configSave of the source: store the checksum of all
preceding bytes into the crc field, then write every byte of the record
to the EEPROM and commit.  Returns the record as left in RAM and the
bytes now held by the EEPROM. -/
def configSave (c : Cfg) : Cfg × List ℕ :=
  let c2 := { c with crc := crcOf c }
  (c2, serializeBody c2 ++ le16 c2.crc)

/-- Function configInit of the source: read the stored record; when the
magic marker or the stored checksum does not match, reset to the
default record and persist it at once; otherwise use the loaded record
unchanged.  Returns the record in RAM and the EEPROM contents. -/
def configInit (mac : List ℕ) (stored : Cfg) (eeprom : List ℕ) : Cfg × List ℕ :=
  if stored.magic ≠ MAGIC ∨ stored.crc ≠ crcOf stored then
    configSave (configDefault mac)
  else (stored, eeprom)

/-!
Concrete fixtures used by counterexamples and witnesses below.
-/

/-- A credential permitted in both directions, facility 1, card 1. -/
def cat1 : Cat := ⟨1, 1, 3⟩

/-- An all-zero credential slot. -/
def blankCat : Cat := ⟨0, 0, 0⟩

/-- A seven-slot credential table holding cat1 in slot zero. -/
def cexCats : List Cat :=
  [cat1, blankCat, blankCat, blankCat, blankCat, blankCat, blankCat]

/-- Environment of the first counterexample iteration: an entry frame
is ready, door sensor reads closed everywhere. -/
def envA : LoopEnv :=
  { millisNow := 200, nowEntry := 1000, nowExit := 1000, nowTrigger := 1000,
    nowEntryLO := 1000, sensorEntryLO := false, nowExitLO := 1000,
    sensorExitLO := false, nowEntryRelock := 1000, sensorEntryRelock := true,
    nowExitRelock := 1000, sensorExitRelock := true }

/-- Environment of the second counterexample iteration: the door-trigger
flag is consumed, shrinking the entry close deadline to one second out. -/
def envB : LoopEnv :=
  { millisNow := 300, nowEntry := 1001, nowExit := 1001, nowTrigger := 1001,
    nowEntryLO := 1001, sensorEntryLO := false, nowExitLO := 1001,
    sensorExitLO := false, nowEntryRelock := 1001, sensorEntryRelock := true,
    nowExitRelock := 1001, sensorExitRelock := true }

/-- Environment of the third counterexample iteration: the deadline has
passed and the sensor reads closed, so the entry lock re-locks. -/
def envC : LoopEnv :=
  { millisNow := 400, nowEntry := 1005, nowExit := 1005, nowTrigger := 1005,
    nowEntryLO := 1005, sensorEntryLO := false, nowExitLO := 1005,
    sensorExitLO := false, nowEntryRelock := 1005, sensorEntryRelock := false,
    nowExitRelock := 1005, sensorExitRelock := false }

/-- Environment of the final counterexample iteration: an exit frame is
ready one second after the entry re-lock and the door sensor reads
open, so the exit lock opens by permit and the entry lock re-opens
through locked-open detection in the same pass. -/
def envD : LoopEnv :=
  { millisNow := 600, nowEntry := 1006, nowExit := 1006, nowTrigger := 1006,
    nowEntryLO := 1006, sensorEntryLO := true, nowExitLO := 1006,
    sensorExitLO := true, nowEntryRelock := 1006, sensorEntryRelock := true,
    nowExitRelock := 1006, sensorExitRelock := true }

/-- Interrupt sequence delivering the 26-bit frame of cat1 (facility 1,
card 1) on the entry channel, most-significant bit first. -/
def feedEntry : List StepChoice :=
  List.replicate 8 (StepChoice.entryBit0 100) ++ [StepChoice.entryBit1 100] ++
    List.replicate 15 (StepChoice.entryBit0 100) ++
    [StepChoice.entryBit1 100, StepChoice.entryBit0 100]

/-- The same frame delivered on the exit channel. -/
def feedExit : List StepChoice :=
  List.replicate 8 (StepChoice.exitBit0 500) ++ [StepChoice.exitBit1 500] ++
    List.replicate 15 (StepChoice.exitBit0 500) ++
    [StepChoice.exitBit1 500, StepChoice.exitBit0 500]

/-- Run violating mutual exclusion: permitted entry, door swing, entry
re-lock at second 1005, then a permitted exit at second 1006 while the
sensor reads open; locked-open detection re-opens the entry direction
in the same iteration although the exit direction is open. -/
def cexTrace : List StepChoice :=
  feedEntry ++
    [StepChoice.loopStep envA, StepChoice.doorPulse, StepChoice.loopStep envB,
     StepChoice.loopStep envC] ++
    feedExit ++ [StepChoice.loopStep envD]

/-- Environment of the boot-time locked-open run: at second zero with
the sensor reading open, locked-open detection fires straight from the
startup state. -/
def envBoot : LoopEnv :=
  { millisNow := 0, nowEntry := 0, nowExit := 0, nowTrigger := 0,
    nowEntryLO := 0, sensorEntryLO := true, nowExitLO := 0,
    sensorExitLO := false, nowEntryRelock := 0, sensorEntryRelock := true,
    nowExitRelock := 0, sensorExitRelock := true }

/-- Credential table of the duplicate-suppression failing input: slot
zero holds facility 2, card 5, permitted both ways. -/
def c3Cats : List Cat :=
  [⟨2, 5, 3⟩, blankCat, blankCat, blankCat, blankCat, blankCat, blankCat]

/-- State of the duplicate-suppression failing input: the last-credential
memo holds (facility 1, card 5) and a completed entry frame encodes the
different credential (facility 2, card 5). -/
def c3Start : LoopState :=
  { initState with st := STATE_ENTRY_WEIGAND_DONE, lastFacilityCode := 1,
                   lastCardCode := 5, entryBitCount := 26,
                   entryDataBits := 2 * 2 ^ 17 + 10 }

/-- State of the swing-extension counterexample: door trigger pending,
entry open, close deadline 60 seconds out at time 100. -/
def c4State : LoopState :=
  { initState with st := STATE_DOOR_TRIGGER ||| STATE_ENTRY_OPEN,
                   entryCloseAt := 160 }

/-- Invariant on the state bitmask tying the open and locked-open flags
together: a locked-open direction is open, and the two directions are
never simultaneously open unless one of them is locked-open. -/
def StInv (x : ℕ) : Prop :=
  (hasFlag x STATE_ENTRY_LOCKED_OPEN = true → hasFlag x STATE_ENTRY_OPEN = true) ∧
  (hasFlag x STATE_EXIT_LOCKED_OPEN = true → hasFlag x STATE_EXIT_OPEN = true) ∧
  (hasFlag x STATE_ENTRY_OPEN = true → hasFlag x STATE_EXIT_OPEN = true →
    hasFlag x STATE_ENTRY_LOCKED_OPEN = true ∨ hasFlag x STATE_EXIT_LOCKED_OPEN = true)

/-!
Helper lemmas about single-bit tests on the state bitmask.
-/

theorem hasFlag_pow (x k : ℕ) : hasFlag x (2 ^ k) = x.testBit k := by
  unfold hasFlag
  cases h : x.testBit k with
  | false =>
    have hz : x &&& 2 ^ k = 0 := by
      apply Nat.eq_of_testBit_eq
      intro i
      rw [Nat.testBit_and, Nat.zero_testBit]
      rcases eq_or_ne k i with rfl | hne
      · simp [h]
      · simp [Nat.testBit_two_pow_of_ne hne]
    simp [hz]
  | true =>
    have ht : (x &&& 2 ^ k).testBit k = true := by
      rw [Nat.testBit_and, h, Nat.testBit_two_pow_self]
      rfl
    have hz : x &&& 2 ^ k ≠ 0 := by
      intro h0
      rw [h0, Nat.zero_testBit] at ht
      cases ht
    simp [hz]

theorem hasFlag_or_any (x m k : ℕ) :
    hasFlag (x ||| m) (2 ^ k) = (hasFlag x (2 ^ k) || m.testBit k) := by
  rw [hasFlag_pow, hasFlag_pow, Nat.testBit_or]

theorem hasFlag_and_any (x m k : ℕ) :
    hasFlag (x &&& m) (2 ^ k) = (hasFlag x (2 ^ k) && m.testBit k) := by
  rw [hasFlag_pow, hasFlag_pow, Nat.testBit_and]

theorem hasFlag_cNot_pow (x k : ℕ) (hk : k < 32) :
    hasFlag (cNot x) (2 ^ k) = !hasFlag x (2 ^ k) := by
  rw [hasFlag_pow, hasFlag_pow]
  unfold cNot
  rw [Nat.testBit_xor]
  have h1 : (0xFFFFFFFF : ℕ).testBit k = true := by
    have he : (0xFFFFFFFF : ℕ) = 2 ^ 32 - 1 := by norm_num
    rw [he, Nat.testBit_two_pow_sub_one]
    simpa using hk
  rw [h1]
  cases x.testBit k <;> rfl

theorem mask_entry_open : STATE_ENTRY_OPEN = 2 ^ 7 := by decide

theorem mask_exit_open : STATE_EXIT_OPEN = 2 ^ 8 := by decide

theorem mask_entry_locked_open : STATE_ENTRY_LOCKED_OPEN = 2 ^ 9 := by decide

theorem mask_exit_locked_open : STATE_EXIT_LOCKED_OPEN = 2 ^ 10 := by decide

theorem mask_door_trigger : STATE_DOOR_TRIGGER = 2 ^ 4 := by decide

theorem mask_entry_done : STATE_ENTRY_WEIGAND_DONE = 2 ^ 0 := by decide

theorem mask_exit_done : STATE_EXIT_WEIGAND_DONE = 2 ^ 1 := by decide

/-!
Claim C2: the frame decoder.
-/

theorem decode_fac_field (x : ℕ) : (x &&& 0x1FE0000) >>> 17 = x >>> 17 % 2 ^ 8 := by
  apply Nat.eq_of_testBit_eq
  intro i
  have he : (0x1FE0000 : ℕ) = (2 ^ 8 - 1) <<< 17 := by decide
  rw [he]
  simp only [Nat.testBit_shiftRight, Nat.testBit_and, Nat.testBit_shiftLeft,
    Nat.testBit_mod_two_pow, Nat.testBit_two_pow_sub_one]
  have hge : 17 ≤ 17 + i := Nat.le_add_right 17 i
  have hsub : 17 + i - 17 = i := by omega
  simp [hsub, hge, Bool.and_comm]

theorem decode_card_field (x : ℕ) : (x &&& 0x1FFFE) >>> 1 = x >>> 1 % 2 ^ 16 := by
  apply Nat.eq_of_testBit_eq
  intro i
  have he : (0x1FFFE : ℕ) = (2 ^ 16 - 1) <<< 1 := by decide
  rw [he]
  simp only [Nat.testBit_shiftRight, Nat.testBit_and, Nat.testBit_shiftLeft,
    Nat.testBit_mod_two_pow, Nat.testBit_two_pow_sub_one]
  have hge : 1 ≤ 1 + i := Nat.le_add_right 1 i
  have hsub : 1 + i - 1 = i := by omega
  simp [hsub, hge, Bool.and_comm]

/-- Claim C2, counterexample.  Read with the convention the claim
itself states (bit positions 1-indexed from the least-significant bit),
facilityCode = bits[23:16] and cardCode = bits[16:1] disagree with the
decoder at the buffer holding a single one bit at 0-indexed position
16: the code returns card 0x8000 where the claimed field layout yields
card 0 and facility 2. -/
theorem c2_counterexample :
    weigandDecode 0 0 26 (2 ^ 16) ≠
      (true, specClaimFacility (2 ^ 16), specClaimCard (2 ^ 16)) := by
  decide

/-- Claim C2, amended: for bitCount 26 the decoder succeeds with
facilityCode the eight bits at 0-indexed positions 17..24 of the buffer
(1-indexed 18..25) and cardCode the sixteen bits at 0-indexed positions
1..16 (1-indexed 2..17), the standard 26-bit layout under the capture
insertion order; for every other bitCount it reports Unsupported and
returns the caller's facility and card values unchanged, so no partial
decode is ever delivered. -/
theorem c2_decode (f0 c0 bitCount dataBits : ℕ) :
    weigandDecode f0 c0 26 dataBits =
      (true, (dataBits >>> 17) % 2 ^ 8, (dataBits >>> 1) % 2 ^ 16) ∧
    (bitCount ≠ 26 → weigandDecode f0 c0 bitCount dataBits = (false, f0, c0)) := by
  constructor
  · show (true, (dataBits &&& 0x1FE0000) >>> 17, (dataBits &&& 0x1FFFE) >>> 1) = _
    rw [decode_fac_field, decode_card_field]
  · intro h
    unfold weigandDecode
    split
    · omega
    · rfl

/-- Claim C2, witness at the frame encoding facility 2, card 1. -/
theorem c2_witness :
    weigandDecode 0 0 26 262146 =
      (true, (262146 >>> 17) % 2 ^ 8, (262146 >>> 1) % 2 ^ 16) ∧
    weigandDecode 0 0 27 262146 = (false, 0, 0) :=
  ⟨(c2_decode 0 0 27 262146).1, (c2_decode 0 0 27 262146).2 (by decide)⟩

/-!
Claims C5 and C6: the access decision.
-/

theorem catNumber_le (cats : List Cat) (f c : ℕ) :
    catNumber cats f c ≤ cats.length := by
  induction cats with
  | nil => simp [catNumber]
  | cons a l ih =>
    rw [catNumber]
    split
    · simp
    · simpa using ih

theorem find?_eq_catNumber (cats : List Cat) (f c : ℕ) :
    (cats.find? fun cat => cat.facility == f && cat.id == c) =
      if catNumber cats f c = cats.length then none
      else some (cats.getD (catNumber cats f c) ⟨0, 0, 0⟩) := by
  induction cats with
  | nil => simp [catNumber]
  | cons a l ih =>
    rw [catNumber]
    by_cases h : a.facility = f ∧ a.id = c
    · have hpa : (a.facility == f && a.id == c) = true := by
        simp [h.1, h.2]
      have hfind : (a :: l).find? (fun cat => cat.facility == f && cat.id == c) = some a := by
        rw [List.find?_cons, hpa]
      rw [if_pos h, hfind]
      simp
    · have hpa : (a.facility == f && a.id == c) = false := by
        by_cases h1 : a.facility = f
        · by_cases h2 : a.id = c
          · exact absurd ⟨h1, h2⟩ h
          · simp [h2]
        · simp [h1]
      have hfind : (a :: l).find? (fun cat => cat.facility == f && cat.id == c) =
          l.find? (fun cat => cat.facility == f && cat.id == c) := by
        rw [List.find?_cons, hpa]
      rw [if_neg h, hfind, ih]
      by_cases he : catNumber l f c = l.length
      · rw [if_pos he, if_pos (by simp [he])]
      · rw [if_neg he, if_neg (by simp [he]), List.getD_cons_succ]

/-- Claim C6: the decision resolves through the first matching slot in
storage order; with no matching slot the result is Unknown (-1), and
with a first match the result is Permit (1) exactly when that slot's
flag for the requested direction is set and Deny (0) otherwise.
Stated against the library first-match lookup on an arbitrary table, in
which (facility, card) pairs may repeat. -/
theorem c6_first_match_decision (cats : List Cat) (d : Direction) (f c : ℕ) :
    (checkCard cats d f c).1 =
      match cats.find? fun cat => cat.facility == f && cat.id == c with
      | none => -1
      | some cat => if catAllows d cat.flags then 1 else 0 := by
  rw [find?_eq_catNumber]
  unfold checkCard
  by_cases h : catNumber cats f c = cats.length
  · simp [h]
  · simp [h]

/-- Claim C5, counterexample: on an unknown credential the source's
checkCard itself emits the unknown-card notification (and log) before
returning, so the decision function is not free of side effects. -/
theorem c5_counterexample : (checkCard c3Cats Direction.ENTRY 99 1).2 ≠ [] := by
  decide

/-- Claim C5, amended: checkCard writes no ledger or lock state (its
only outputs are the decision value and its own calls), and on every
matched slot it performs no notification, but on the unknown path it
emits the unknown-card notification itself; the Permit and Deny
notifications and all ledger mutation remain with the calling loop. -/
theorem c5_checkCard_effects (cats : List Cat) (d : Direction) (f c : ℕ) :
    ((cats.find? fun cat => cat.facility == f && cat.id == c).isSome →
      (checkCard cats d f c).2 = []) ∧
    ((cats.find? fun cat => cat.facility == f && cat.id == c) = none →
      (checkCard cats d f c).2 = [Event.unknownCardNtfy f c]) := by
  rw [find?_eq_catNumber]
  unfold checkCard
  by_cases h : catNumber cats f c = cats.length
  · simp [h]
  · simp [h]

/-- Claim C5, witness: a matched credential produces no checkCard-side
effects, applying the amended theorem at slot zero of the concrete
table. -/
theorem c5_witness :
    (checkCard c3Cats Direction.ENTRY 2 5).2 = [] :=
  (c5_checkCard_effects c3Cats Direction.ENTRY 2 5).1 (by decide)

/-!
Claim C3: the last-credential memo.
-/

/-- Claim C3, evaluation at the failing input: the memo holds
(facility 1, card 5) and a permitted frame decodes to the different
credential (facility 2, card 5); because line 302 requires both fields
to differ, the loop emits no access notification (only the unlock
pulse) and leaves the presence ledger untouched, although the
credential differs from the memo. -/
theorem c3_memo_guard_eval :
    ((2 : ℕ), (5 : ℕ)) ≠ ((1 : ℕ), (5 : ℕ)) ∧
    c3Start.lastFacilityCode = 1 ∧ c3Start.lastCardCode = 5 ∧
    weigandDecode 0 0 c3Start.entryBitCount c3Start.entryDataBits = (true, 2, 5) ∧
    (checkCard c3Cats Direction.ENTRY 2 5).1 = 1 ∧
    (entryFrameBranch c3Cats 1000 c3Start).2 = [Event.unlockPulse Direction.ENTRY] ∧
    (entryFrameBranch c3Cats 1000 c3Start).1.catInOut = c3Start.catInOut ∧
    (entryFrameBranch c3Cats 1000 c3Start).1.catTime = c3Start.catTime := by
  decide

/-!
Claim C4: the door-swing extension.
-/

/-- Claim C4, counterexample: with the trigger flag and the entry lock
open, a close deadline 60 seconds out (160 at time 100) is further in
the future than now + DOOR_SWING_TIMEOUT, yet the door-trigger branch
reduces it to 103. -/
theorem c4_counterexample :
    hasFlag c4State.st STATE_DOOR_TRIGGER = true ∧
    hasFlag c4State.st STATE_ENTRY_OPEN = true ∧
    100 + DOOR_SWING_TIMEOUT_DEFAULT < c4State.entryCloseAt ∧
    (doorTriggerBranch 100 c4State).entryCloseAt < c4State.entryCloseAt := by
  decide

/-- Claim C4, amended: the door-trigger handler sets the close deadline
of each open direction to exactly now + DOOR_SWING_TIMEOUT (3 s); this
never decreases the deadline precisely when the stored deadline is at
most now + DOOR_SWING_TIMEOUT, and a stored deadline further in the
future is reduced to that value. -/
theorem c4_swing_sets_deadline (now : ℕ) (s : LoopState)
    (ht : hasFlag s.st STATE_DOOR_TRIGGER = true) :
    (hasFlag s.st STATE_ENTRY_OPEN = true →
      (doorTriggerBranch now s).entryCloseAt = now + DOOR_SWING_TIMEOUT_DEFAULT ∧
      (s.entryCloseAt ≤ now + DOOR_SWING_TIMEOUT_DEFAULT →
        s.entryCloseAt ≤ (doorTriggerBranch now s).entryCloseAt)) ∧
    (hasFlag s.st STATE_EXIT_OPEN = true →
      (doorTriggerBranch now s).exitCloseAt = now + DOOR_SWING_TIMEOUT_DEFAULT ∧
      (s.exitCloseAt ≤ now + DOOR_SWING_TIMEOUT_DEFAULT →
        s.exitCloseAt ≤ (doorTriggerBranch now s).exitCloseAt)) := by
  unfold doorTriggerBranch
  by_cases he : hasFlag s.st STATE_ENTRY_OPEN = true <;>
    by_cases hx : hasFlag s.st STATE_EXIT_OPEN = true <;>
      simp [ht, he, hx]

/-!
Claim C7: locked-open detection.
-/

/-- Claim C7: for either direction in the Locked state (open and
locked-open flags clear) with the door sensor reading open, the
locked-open branch re-unlocks, flags the direction locked-open, and
notifies exactly when the recorded re-lock time lies less than two
seconds in the past; when the re-lock happened more than two seconds
ago the branch changes nothing and performs no actuation. -/
theorem c7_locked_open_recovery (now : ℕ) (sensor : Bool) (s : LoopState)
    (hs : sensor = true) :
    (hasFlag s.st STATE_ENTRY_OPEN = false →
      hasFlag s.st STATE_ENTRY_LOCKED_OPEN = false →
      ((now - s.entryCloseTime < 2 →
        entryLockedOpenBranch now sensor s =
          ({ s with st := s.st ||| STATE_ENTRY_OPEN ||| STATE_ENTRY_LOCKED_OPEN },
           [Event.unlockPulse Direction.ENTRY, Event.lockedOpenNtfy Direction.ENTRY])) ∧
       (2 < now - s.entryCloseTime →
        entryLockedOpenBranch now sensor s = (s, [])))) ∧
    (hasFlag s.st STATE_EXIT_OPEN = false →
      hasFlag s.st STATE_EXIT_LOCKED_OPEN = false →
      ((now - s.exitCloseTime < 2 →
        exitLockedOpenBranch now sensor s =
          ({ s with st := s.st ||| STATE_EXIT_OPEN ||| STATE_EXIT_LOCKED_OPEN },
           [Event.unlockPulse Direction.EXIT, Event.lockedOpenNtfy Direction.EXIT])) ∧
       (2 < now - s.exitCloseTime →
        exitLockedOpenBranch now sensor s = (s, [])))) := by
  subst hs
  constructor
  · intro hO hLO
    have g1 : hasFlag (cNot s.st) STATE_ENTRY_OPEN = true := by
      rw [mask_entry_open] at hO ⊢
      rw [hasFlag_cNot_pow _ _ (by omega), hO]
      rfl
    have g2 : hasFlag (cNot s.st) STATE_ENTRY_LOCKED_OPEN = true := by
      rw [mask_entry_locked_open] at hLO ⊢
      rw [hasFlag_cNot_pow _ _ (by omega), hLO]
      rfl
    constructor
    · intro hlt
      unfold entryLockedOpenBranch
      rw [if_pos ⟨g1, g2, hlt, rfl⟩]
      rfl
    · intro hgt
      unfold entryLockedOpenBranch
      rw [if_neg fun hc => absurd hc.2.2.1 (by omega)]
  · intro hO hLO
    have g1 : hasFlag (cNot s.st) STATE_EXIT_OPEN = true := by
      rw [mask_exit_open] at hO ⊢
      rw [hasFlag_cNot_pow _ _ (by omega), hO]
      rfl
    have g2 : hasFlag (cNot s.st) STATE_EXIT_LOCKED_OPEN = true := by
      rw [mask_exit_locked_open] at hLO ⊢
      rw [hasFlag_cNot_pow _ _ (by omega), hLO]
      rfl
    constructor
    · intro hlt
      unfold exitLockedOpenBranch
      rw [if_pos ⟨g1, g2, hlt, rfl⟩]
      rfl
    · intro hgt
      unfold exitLockedOpenBranch
      rw [if_neg fun hc => absurd hc.2.2.1 (by omega)]

/-- Claim C7, witness at time 1 with both directions re-locked at time
zero (recent), and at time 10 with the recovery window expired. -/
theorem c7_witness :
    entryLockedOpenBranch 1 true initState =
      ({ initState with
          st := initState.st ||| STATE_ENTRY_OPEN ||| STATE_ENTRY_LOCKED_OPEN },
       [Event.unlockPulse Direction.ENTRY, Event.lockedOpenNtfy Direction.ENTRY]) ∧
    exitLockedOpenBranch 10 true initState = (initState, []) :=
  ⟨((c7_locked_open_recovery 1 true initState rfl).1 (by decide) (by decide)).1
     (by decide),
   ((c7_locked_open_recovery 10 true initState rfl).2 (by decide) (by decide)).2
     (by decide)⟩

/-- Claim C4, witness at the counterexample state. -/
theorem c4_witness :
    (hasFlag c4State.st STATE_ENTRY_OPEN = true →
      (doorTriggerBranch 100 c4State).entryCloseAt = 100 + DOOR_SWING_TIMEOUT_DEFAULT ∧
      (c4State.entryCloseAt ≤ 100 + DOOR_SWING_TIMEOUT_DEFAULT →
        c4State.entryCloseAt ≤ (doorTriggerBranch 100 c4State).entryCloseAt)) ∧
    (hasFlag c4State.st STATE_EXIT_OPEN = true →
      (doorTriggerBranch 100 c4State).exitCloseAt = 100 + DOOR_SWING_TIMEOUT_DEFAULT ∧
      (c4State.exitCloseAt ≤ 100 + DOOR_SWING_TIMEOUT_DEFAULT →
        c4State.exitCloseAt ≤ (doorTriggerBranch 100 c4State).exitCloseAt)) :=
  c4_swing_sets_deadline 100 c4State (by decide)

/-!
Claim C8: capture-state reset.
-/

/-- Claim C8: whenever a channel's frame-ready flag is set, processing
the frame leaves that channel's capture state (bit buffer, bit count,
deadline) empty, on every path through decode and decision; and the
reset operation itself always produces the empty capture state, so
resetting an already-empty capture state leaves it empty. -/
theorem c8_capture_reset (cats : List Cat) (now : ℕ) (s : LoopState) :
    (hasFlag s.st STATE_ENTRY_WEIGAND_DONE = true →
      (entryFrameBranch cats now s).1.entryBitCount = 0 ∧
      (entryFrameBranch cats now s).1.entryDataBits = 0 ∧
      (entryFrameBranch cats now s).1.entryLastBit = 0) ∧
    (hasFlag s.st STATE_EXIT_WEIGAND_DONE = true →
      (exitFrameBranch cats now s).1.exitBitCount = 0 ∧
      (exitFrameBranch cats now s).1.exitDataBits = 0 ∧
      (exitFrameBranch cats now s).1.exitLastBit = 0) ∧
    ((entryCaptureReset s).entryBitCount = 0 ∧
      (entryCaptureReset s).entryDataBits = 0 ∧
      (entryCaptureReset s).entryLastBit = 0) ∧
    ((exitCaptureReset s).exitBitCount = 0 ∧
      (exitCaptureReset s).exitDataBits = 0 ∧
      (exitCaptureReset s).exitLastBit = 0) := by
  refine ⟨fun h => ?_, fun h => ?_, ⟨rfl, rfl, rfl⟩, ⟨rfl, rfl, rfl⟩⟩
  · unfold entryFrameBranch
    rw [if_pos h]
    exact ⟨rfl, rfl, rfl⟩
  · unfold exitFrameBranch
    rw [if_pos h]
    exact ⟨rfl, rfl, rfl⟩

/-- Claim C8, witness at the frame-ready state of the failing-input
fixture. -/
theorem c8_witness :
    (entryFrameBranch c3Cats 1000 c3Start).1.entryBitCount = 0 ∧
    (entryFrameBranch c3Cats 1000 c3Start).1.entryDataBits = 0 ∧
    (entryFrameBranch c3Cats 1000 c3Start).1.entryLastBit = 0 :=
  (c8_capture_reset c3Cats 1000 c3Start).1 (by decide)

/-!
Claim C9: configuration integrity at startup.
-/

theorem crcOf_set_crc (c : Cfg) (x : ℕ) : crcOf { c with crc := x } = crcOf c := rfl

theorem configSave_fst (c : Cfg) : (configSave c).1 = { c with crc := crcOf c } := rfl

theorem configSave_crc_self (c : Cfg) :
    (configSave c).1.crc = crcOf ((configSave c).1) := by
  rw [configSave_fst]
  exact rfl

/-- Claim C9: when the stored record carries the right magic marker and
a checksum matching the CRC of all preceding record bytes, configInit
uses it unchanged and leaves the EEPROM alone; otherwise it resets to
the hard-coded default record (blank credential slots, empty SSID and
WPA key) and immediately persists it, and the persisted record carries
the magic marker and a self-consistent checksum, so the configuration
is never left half-initialised. -/
theorem c9_config_integrity (mac : List ℕ) (stored : Cfg) (eeprom : List ℕ) :
    (stored.magic = MAGIC ∧ stored.crc = crcOf stored →
      configInit mac stored eeprom = (stored, eeprom)) ∧
    (¬(stored.magic = MAGIC ∧ stored.crc = crcOf stored) →
      configInit mac stored eeprom = configSave (configDefault mac) ∧
      (configInit mac stored eeprom).1.magic = MAGIC ∧
      (configInit mac stored eeprom).1.crc = crcOf (configInit mac stored eeprom).1 ∧
      (configInit mac stored eeprom).1.ssid = [] ∧
      (configInit mac stored eeprom).1.wpakey = [] ∧
      (configInit mac stored eeprom).1.cat = List.replicate CFG_NCATS blankCatCfg ∧
      (configInit mac stored eeprom).2 =
        serializeBody (configInit mac stored eeprom).1 ++
          le16 (configInit mac stored eeprom).1.crc) := by
  unfold configInit
  constructor
  · rintro ⟨h1, h2⟩
    rw [if_neg (fun hc => hc.elim (fun hm => hm h1) (fun hcc => hcc h2))]
  · intro h
    have hc : stored.magic ≠ MAGIC ∨ stored.crc ≠ crcOf stored := by tauto
    rw [if_pos hc]
    refine ⟨rfl, rfl, ?_, rfl, rfl, rfl, rfl⟩
    rw [configSave_fst]
    exact rfl

/-- Claim C9, witness: a freshly saved default record passes the check
unchanged, and a record with a clobbered magic marker is healed to a
default that carries the magic marker and a matching checksum. -/
theorem c9_witness :
    configInit [] (configSave (configDefault [])).1 [7] =
      ((configSave (configDefault [])).1, [7]) ∧
    (configInit [] { configDefault [] with magic := 0 } []).1.magic = MAGIC ∧
    (configInit [] { configDefault [] with magic := 0 } []).1.crc =
      crcOf (configInit [] { configDefault [] with magic := 0 } []).1 ∧
    (configInit [] { configDefault [] with magic := 0 } []).1.cat =
      List.replicate CFG_NCATS blankCatCfg := by
  have h2 : (configSave (configDefault [])).1.crc =
      crcOf ((configSave (configDefault [])).1) :=
    configSave_crc_self (configDefault [])
  have hbad : ¬(({ configDefault [] with magic := 0 } : Cfg).magic = MAGIC ∧
      ({ configDefault [] with magic := 0 } : Cfg).crc =
        crcOf { configDefault [] with magic := 0 }) :=
    fun hx => absurd hx.1 (by decide)
  exact
    ⟨(c9_config_integrity [] (configSave (configDefault [])).1 [7]).1 ⟨rfl, h2⟩,
     ((c9_config_integrity [] { configDefault [] with magic := 0 } []).2 hbad).2.1,
     ((c9_config_integrity [] { configDefault [] with magic := 0 } []).2 hbad).2.2.1,
     ((c9_config_integrity [] { configDefault [] with magic := 0 } []).2
        hbad).2.2.2.2.2.1⟩

/-!
Claims C1 and C10: reachable-state invariants of the control loop.
The transition system is the branch-sequential loop iteration plus the
interrupt handlers; StInv is the inductive invariant.
-/

theorem hasFlag_eo (y : ℕ) : hasFlag y STATE_ENTRY_OPEN = y.testBit 7 := by
  rw [mask_entry_open]
  exact hasFlag_pow y 7

theorem hasFlag_xo (y : ℕ) : hasFlag y STATE_EXIT_OPEN = y.testBit 8 := by
  rw [mask_exit_open]
  exact hasFlag_pow y 8

theorem hasFlag_elo (y : ℕ) : hasFlag y STATE_ENTRY_LOCKED_OPEN = y.testBit 9 := by
  rw [mask_entry_locked_open]
  exact hasFlag_pow y 9

theorem hasFlag_xlo (y : ℕ) : hasFlag y STATE_EXIT_LOCKED_OPEN = y.testBit 10 := by
  rw [mask_exit_locked_open]
  exact hasFlag_pow y 10

theorem stInv_or_mask (x m : ℕ) (h7 : m.testBit 7 = false) (h8 : m.testBit 8 = false)
    (h9 : m.testBit 9 = false) (h10 : m.testBit 10 = false) :
    StInv x → StInv (x ||| m) := by
  simp only [StInv, hasFlag_eo, hasFlag_xo, hasFlag_elo, hasFlag_xlo,
    Nat.testBit_or, h7, h8, h9, h10, Bool.or_false]
  exact id

theorem stInv_and_mask (x m : ℕ) (h7 : m.testBit 7 = true) (h8 : m.testBit 8 = true)
    (h9 : m.testBit 9 = true) (h10 : m.testBit 10 = true) :
    StInv x → StInv (x &&& m) := by
  simp only [StInv, hasFlag_eo, hasFlag_xo, hasFlag_elo, hasFlag_xlo,
    Nat.testBit_and, h7, h8, h9, h10, Bool.and_true]
  exact id

theorem stInv_unlock_entry (x : ℕ) (hxo : hasFlag x STATE_EXIT_OPEN = false)
    (h : StInv x) :
    StInv ((x ||| STATE_ENTRY_OPEN) &&& cNot STATE_ENTRY_WEIGAND_DONE) := by
  simp only [StInv, hasFlag_eo, hasFlag_xo, hasFlag_elo, hasFlag_xlo] at h hxo ⊢
  simp +decide [cNot, STATE_ENTRY_OPEN, STATE_ENTRY_WEIGAND_DONE, hxo] at h ⊢
  tauto

theorem stInv_unlock_exit (x : ℕ) (heo : hasFlag x STATE_ENTRY_OPEN = false)
    (h : StInv x) :
    StInv ((x ||| STATE_EXIT_OPEN) &&& cNot STATE_EXIT_WEIGAND_DONE) := by
  simp only [StInv, hasFlag_eo, hasFlag_xo, hasFlag_elo, hasFlag_xlo] at h heo ⊢
  simp +decide [cNot, STATE_EXIT_OPEN, STATE_EXIT_WEIGAND_DONE, heo] at h ⊢
  tauto

theorem stInv_lockedopen_entry (x : ℕ) (h : StInv x) :
    StInv ((x ||| STATE_ENTRY_OPEN) ||| STATE_ENTRY_LOCKED_OPEN) := by
  simp only [StInv, hasFlag_eo, hasFlag_xo, hasFlag_elo, hasFlag_xlo] at h ⊢
  simp +decide [STATE_ENTRY_OPEN, STATE_ENTRY_LOCKED_OPEN] at h ⊢
  tauto

theorem stInv_lockedopen_exit (x : ℕ) (h : StInv x) :
    StInv ((x ||| STATE_EXIT_OPEN) ||| STATE_EXIT_LOCKED_OPEN) := by
  simp only [StInv, hasFlag_eo, hasFlag_xo, hasFlag_elo, hasFlag_xlo] at h ⊢
  simp +decide [STATE_EXIT_OPEN, STATE_EXIT_LOCKED_OPEN] at h ⊢
  tauto

theorem stInv_relock_entry (x : ℕ) (h : StInv x) :
    StInv (x &&& (cNot STATE_ENTRY_OPEN &&& cNot STATE_ENTRY_LOCKED_OPEN)) := by
  simp only [StInv, hasFlag_eo, hasFlag_xo, hasFlag_elo, hasFlag_xlo] at h ⊢
  simp +decide [cNot, STATE_ENTRY_OPEN, STATE_ENTRY_LOCKED_OPEN] at h ⊢
  tauto

theorem stInv_relock_exit (x : ℕ) (h : StInv x) :
    StInv (x &&& (cNot STATE_EXIT_OPEN &&& cNot STATE_EXIT_LOCKED_OPEN)) := by
  simp only [StInv, hasFlag_eo, hasFlag_xo, hasFlag_elo, hasFlag_xlo] at h ⊢
  simp +decide [cNot, STATE_EXIT_OPEN, STATE_EXIT_LOCKED_OPEN] at h ⊢
  tauto


theorem entryFrameBranch_st (cats : List Cat) (now : ℕ) (s : LoopState) :
    (entryFrameBranch cats now s).1.st = s.st ∨
    (entryFrameBranch cats now s).1.st = s.st &&& cNot STATE_ENTRY_WEIGAND_DONE ∨
    (hasFlag s.st STATE_EXIT_OPEN = false ∧
      (entryFrameBranch cats now s).1.st =
        (s.st ||| STATE_ENTRY_OPEN) &&& cNot STATE_ENTRY_WEIGAND_DONE) := by
  unfold entryFrameBranch
  by_cases h0 : hasFlag s.st STATE_ENTRY_WEIGAND_DONE = true
  · simp only [h0, if_true]
    by_cases h1 : ((weigandDecode 0 0 s.entryBitCount s.entryDataBits).1 &&
        hasFlag (cNot s.st) STATE_EXIT_OPEN) = true
    · have hxo : hasFlag s.st STATE_EXIT_OPEN = false := by
        have h1b := (Bool.and_eq_true _ _).mp h1 |>.2
        rw [mask_exit_open] at h1b ⊢
        rw [hasFlag_cNot_pow _ _ (by omega)] at h1b
        simpa using h1b
      simp only [h1, if_true]
      by_cases h2 : (checkCard cats Direction.ENTRY
          (weigandDecode 0 0 s.entryBitCount s.entryDataBits).2.1
          (weigandDecode 0 0 s.entryBitCount s.entryDataBits).2.2).1 = 0
      · simp [h2, entryCaptureReset]
      · by_cases h3 : (checkCard cats Direction.ENTRY
            (weigandDecode 0 0 s.entryBitCount s.entryDataBits).2.1
            (weigandDecode 0 0 s.entryBitCount s.entryDataBits).2.2).1 = 1
        · refine Or.inr (Or.inr ⟨hxo, ?_⟩)
          simp only [h2, h3, if_false, if_true]
          split_ifs <;> try simp [entryCaptureReset, entryUnlock]
          all_goals omega
        · simp [h2, h3, entryCaptureReset]
    · simp [h1, entryCaptureReset]
  · simp [h0]


theorem exitFrameBranch_st (cats : List Cat) (now : ℕ) (s : LoopState) :
    (exitFrameBranch cats now s).1.st = s.st ∨
    (exitFrameBranch cats now s).1.st = s.st &&& cNot STATE_EXIT_WEIGAND_DONE ∨
    (hasFlag s.st STATE_ENTRY_OPEN = false ∧
      (exitFrameBranch cats now s).1.st =
        (s.st ||| STATE_EXIT_OPEN) &&& cNot STATE_EXIT_WEIGAND_DONE) := by
  unfold exitFrameBranch
  by_cases h0 : hasFlag s.st STATE_EXIT_WEIGAND_DONE = true
  · simp only [h0, if_true]
    by_cases h1 : ((weigandDecode 0 0 s.exitBitCount s.exitDataBits).1 &&
        hasFlag (cNot s.st) STATE_ENTRY_OPEN) = true
    · have heo : hasFlag s.st STATE_ENTRY_OPEN = false := by
        have h1b := (Bool.and_eq_true _ _).mp h1 |>.2
        rw [mask_entry_open] at h1b ⊢
        rw [hasFlag_cNot_pow _ _ (by omega)] at h1b
        simpa using h1b
      simp only [h1, if_true]
      by_cases h2 : (checkCard cats Direction.EXIT
          (weigandDecode 0 0 s.exitBitCount s.exitDataBits).2.1
          (weigandDecode 0 0 s.exitBitCount s.exitDataBits).2.2).1 = 0
      · simp [h2, exitCaptureReset]
      · by_cases h3 : (checkCard cats Direction.EXIT
            (weigandDecode 0 0 s.exitBitCount s.exitDataBits).2.1
            (weigandDecode 0 0 s.exitBitCount s.exitDataBits).2.2).1 = 1
        · refine Or.inr (Or.inr ⟨heo, ?_⟩)
          simp only [h2, h3, if_false, if_true]
          split_ifs <;> try simp [exitCaptureReset, exitUnlock]
          all_goals omega
        · simp [h2, h3, exitCaptureReset]
    · simp [h1, exitCaptureReset]
  · simp [h0]

theorem doorTriggerBranch_st (now : ℕ) (s : LoopState) :
    (doorTriggerBranch now s).st = s.st ∨
    (doorTriggerBranch now s).st = s.st &&& cNot STATE_DOOR_TRIGGER := by
  unfold doorTriggerBranch
  by_cases h0 : hasFlag s.st STATE_DOOR_TRIGGER = true
  · simp only [h0, if_true]
    right
    split_ifs <;> rfl
  · simp [h0]

theorem entryLockedOpenBranch_st (now : ℕ) (sensor : Bool) (s : LoopState) :
    (entryLockedOpenBranch now sensor s).1.st = s.st ∨
    (entryLockedOpenBranch now sensor s).1.st =
      (s.st ||| STATE_ENTRY_OPEN) ||| STATE_ENTRY_LOCKED_OPEN := by
  unfold entryLockedOpenBranch
  split_ifs <;> simp [entryUnlock]

theorem exitLockedOpenBranch_st (now : ℕ) (sensor : Bool) (s : LoopState) :
    (exitLockedOpenBranch now sensor s).1.st = s.st ∨
    (exitLockedOpenBranch now sensor s).1.st =
      (s.st ||| STATE_EXIT_OPEN) ||| STATE_EXIT_LOCKED_OPEN := by
  unfold exitLockedOpenBranch
  split_ifs <;> simp [exitUnlock]

theorem entryRelockBranch_st (now : ℕ) (sensor : Bool) (s : LoopState) :
    (entryRelockBranch now sensor s).1.st = s.st ∨
    (entryRelockBranch now sensor s).1.st =
      (s.st &&& cNot STATE_ENTRY_OPEN) &&&
        (cNot STATE_ENTRY_OPEN &&& cNot STATE_ENTRY_LOCKED_OPEN) := by
  simp only [entryRelockBranch, entryLock]
  split_ifs <;> simp

theorem exitRelockBranch_st (now : ℕ) (sensor : Bool) (s : LoopState) :
    (exitRelockBranch now sensor s).1.st = s.st ∨
    (exitRelockBranch now sensor s).1.st =
      (s.st &&& cNot STATE_EXIT_OPEN) &&&
        (cNot STATE_EXIT_OPEN &&& cNot STATE_EXIT_LOCKED_OPEN) := by
  simp only [exitRelockBranch, exitLock]
  split_ifs <;> simp

theorem stInv_relock_entry_full (x : ℕ) (h : StInv x) :
    StInv ((x &&& cNot STATE_ENTRY_OPEN) &&&
      (cNot STATE_ENTRY_OPEN &&& cNot STATE_ENTRY_LOCKED_OPEN)) := by
  simp only [StInv, hasFlag_eo, hasFlag_xo, hasFlag_elo, hasFlag_xlo] at h ⊢
  simp +decide [cNot, STATE_ENTRY_OPEN, STATE_ENTRY_LOCKED_OPEN] at h ⊢
  tauto

theorem stInv_relock_exit_full (x : ℕ) (h : StInv x) :
    StInv ((x &&& cNot STATE_EXIT_OPEN) &&&
      (cNot STATE_EXIT_OPEN &&& cNot STATE_EXIT_LOCKED_OPEN)) := by
  simp only [StInv, hasFlag_eo, hasFlag_xo, hasFlag_elo, hasFlag_xlo] at h ⊢
  simp +decide [cNot, STATE_EXIT_OPEN, STATE_EXIT_LOCKED_OPEN] at h ⊢
  tauto

theorem weigandDoneCheck_pres (millis : ℕ) (s : LoopState) (h : StInv s.st) :
    StInv (weigandDoneCheck millis s).st := by
  simp only [weigandDoneCheck]
  split_ifs
  · exact stInv_or_mask _ _ (by decide) (by decide) (by decide) (by decide)
      (stInv_or_mask _ _ (by decide) (by decide) (by decide) (by decide) h)
  · exact stInv_or_mask _ _ (by decide) (by decide) (by decide) (by decide) h
  · exact stInv_or_mask _ _ (by decide) (by decide) (by decide) (by decide) h
  · exact h

theorem entryFrameBranch_pres (cats : List Cat) (now : ℕ) (s : LoopState)
    (h : StInv s.st) : StInv (entryFrameBranch cats now s).1.st := by
  rcases entryFrameBranch_st cats now s with he | he | ⟨hg, he⟩
  · rw [he]; exact h
  · rw [he]
    exact stInv_and_mask _ _ (by decide) (by decide) (by decide) (by decide) h
  · rw [he]
    exact stInv_unlock_entry _ hg h

theorem exitFrameBranch_pres (cats : List Cat) (now : ℕ) (s : LoopState)
    (h : StInv s.st) : StInv (exitFrameBranch cats now s).1.st := by
  rcases exitFrameBranch_st cats now s with he | he | ⟨hg, he⟩
  · rw [he]; exact h
  · rw [he]
    exact stInv_and_mask _ _ (by decide) (by decide) (by decide) (by decide) h
  · rw [he]
    exact stInv_unlock_exit _ hg h

theorem doorTriggerBranch_pres (now : ℕ) (s : LoopState) (h : StInv s.st) :
    StInv (doorTriggerBranch now s).st := by
  rcases doorTriggerBranch_st now s with he | he <;> rw [he]
  · exact h
  · exact stInv_and_mask _ _ (by decide) (by decide) (by decide) (by decide) h

theorem entryLockedOpenBranch_pres (now : ℕ) (sensor : Bool) (s : LoopState)
    (h : StInv s.st) : StInv (entryLockedOpenBranch now sensor s).1.st := by
  rcases entryLockedOpenBranch_st now sensor s with he | he <;> rw [he]
  · exact h
  · exact stInv_lockedopen_entry _ h

theorem exitLockedOpenBranch_pres (now : ℕ) (sensor : Bool) (s : LoopState)
    (h : StInv s.st) : StInv (exitLockedOpenBranch now sensor s).1.st := by
  rcases exitLockedOpenBranch_st now sensor s with he | he <;> rw [he]
  · exact h
  · exact stInv_lockedopen_exit _ h

theorem entryRelockBranch_pres (now : ℕ) (sensor : Bool) (s : LoopState)
    (h : StInv s.st) : StInv (entryRelockBranch now sensor s).1.st := by
  rcases entryRelockBranch_st now sensor s with he | he <;> rw [he]
  · exact h
  · exact stInv_relock_entry_full _ h

theorem exitRelockBranch_pres (now : ℕ) (sensor : Bool) (s : LoopState)
    (h : StInv s.st) : StInv (exitRelockBranch now sensor s).1.st := by
  rcases exitRelockBranch_st now sensor s with he | he <;> rw [he]
  · exact h
  · exact stInv_relock_exit_full _ h

theorem loopIter_pres (cats : List Cat) (e : LoopEnv) (s : LoopState)
    (h : StInv s.st) : StInv (loopIter cats e s).1.st := by
  simp only [loopIter]
  exact exitRelockBranch_pres _ _ _
    (entryRelockBranch_pres _ _ _
      (exitLockedOpenBranch_pres _ _ _
        (entryLockedOpenBranch_pres _ _ _
          (doorTriggerBranch_pres _ _
            (exitFrameBranch_pres _ _ _
              (entryFrameBranch_pres _ _ _
                (weigandDoneCheck_pres _ _ h)))))))

theorem isrEntryD0_st (m : ℕ) (s : LoopState) : (isrEntryD0 m s).st = s.st := by
  unfold isrEntryD0
  split_ifs <;> rfl

theorem isrEntryD1_st (m : ℕ) (s : LoopState) : (isrEntryD1 m s).st = s.st := by
  unfold isrEntryD1
  split_ifs <;> rfl

theorem isrExitD0_st (m : ℕ) (s : LoopState) : (isrExitD0 m s).st = s.st := by
  unfold isrExitD0
  split_ifs <;> rfl

theorem isrExitD1_st (m : ℕ) (s : LoopState) : (isrExitD1 m s).st = s.st := by
  unfold isrExitD1
  split_ifs <;> rfl

theorem stepFn_pres (cats : List Cat) (c : StepChoice) (s : LoopState)
    (h : StInv s.st) : StInv (stepFn cats c s).st := by
  cases c with
  | loopStep e => exact loopIter_pres cats e s h
  | entryBit0 m => rw [stepFn, isrEntryD0_st]; exact h
  | entryBit1 m => rw [stepFn, isrEntryD1_st]; exact h
  | exitBit0 m => rw [stepFn, isrExitD0_st]; exact h
  | exitBit1 m => rw [stepFn, isrExitD1_st]; exact h
  | doorPulse =>
    show StInv (s.st ||| STATE_DOOR_TRIGGER)
    exact stInv_or_mask _ _ (by decide) (by decide) (by decide) (by decide) h

theorem reachable_stInv (cats : List Cat) (t : LoopState) (h : Reachable cats t) :
    StInv t.st := by
  induction h with
  | refl => exact ⟨by decide, by decide, by decide⟩
  | tail hab hbc ih =>
    obtain ⟨c, hc⟩ := hbc
    rw [← hc]
    exact stepFn_pres cats c _ ih

theorem reflTransGen_run (cats : List Cat) (tr : List StepChoice) (s : LoopState) :
    Relation.ReflTransGen (StepRel cats) s (run cats tr s) := by
  induction tr generalizing s with
  | nil => exact Relation.ReflTransGen.refl
  | cons c rest ih =>
    exact Relation.ReflTransGen.head ⟨c, rfl⟩ (ih (stepFn cats c s))

theorem reachable_run (cats : List Cat) (tr : List StepChoice) :
    Reachable cats (run cats tr initState) :=
  reflTransGen_run cats tr initState


set_option maxRecDepth 40000 in
/-- Claim C1, counterexample: a concrete run from the startup state is
exhibited after which the entry direction is in LockedOpen (open and
locked-open flags set) while the exit direction is simultaneously
Unlocked (open flag set, locked-open clear).  The run: a permitted
entry at second 1000, a door swing, re-lock at second 1005, then a
permitted exit at second 1006 with the shared door sensor reading
open, upon which entry locked-open detection re-unlocks the entry
direction regardless of the exit lock. -/
theorem c1_counterexample :
    Reachable cexCats (run cexCats cexTrace initState) ∧
    hasFlag (run cexCats cexTrace initState).st STATE_ENTRY_OPEN = true ∧
    hasFlag (run cexCats cexTrace initState).st STATE_ENTRY_LOCKED_OPEN = true ∧
    hasFlag (run cexCats cexTrace initState).st STATE_EXIT_OPEN = true ∧
    hasFlag (run cexCats cexTrace initState).st STATE_EXIT_LOCKED_OPEN = false :=
  ⟨reachable_run cexCats cexTrace, by decide, by decide, by decide, by decide⟩

/-- Claim C1, amended: in every reachable state of the control loop,
for every credential table, if the entry and exit directions are both
in Unlocked or LockedOpen (open flag set), then at least one of them
is in the LockedOpen failure-recovery state; equivalently, the
frame-ready unlock path alone preserves full mutual exclusion, and only
locked-open recovery can open a direction while the opposite one is
open. -/
theorem c1_mutual_exclusion_amended (cats : List Cat) (s : LoopState)
    (h : Reachable cats s)
    (he : hasFlag s.st STATE_ENTRY_OPEN = true)
    (hx : hasFlag s.st STATE_EXIT_OPEN = true) :
    hasFlag s.st STATE_ENTRY_LOCKED_OPEN = true ∨
    hasFlag s.st STATE_EXIT_LOCKED_OPEN = true :=
  (reachable_stInv cats s h).2.2 he hx

set_option maxRecDepth 40000 in
/-- Claim C1, witness: the amended theorem applied at the concrete
reachable both-open state of the counterexample run. -/
theorem c1_witness :
    hasFlag (run cexCats cexTrace initState).st STATE_ENTRY_LOCKED_OPEN = true ∨
    hasFlag (run cexCats cexTrace initState).st STATE_EXIT_LOCKED_OPEN = true :=
  c1_mutual_exclusion_amended cexCats _ (reachable_run cexCats cexTrace)
    (by decide) (by decide)

/-- Claim C10: in every reachable state of the control loop, for each
direction, the locked-open flag implies the open flag: entering
LockedOpen first performs the unlock that sets the open flag, and the
re-lock transition clears both flags together with the combined
complement mask, so LockedOpen never coexists with a cleared open
flag. -/
theorem c10_locked_open_implies_open (cats : List Cat) (s : LoopState)
    (h : Reachable cats s) :
    (hasFlag s.st STATE_ENTRY_LOCKED_OPEN = true →
      hasFlag s.st STATE_ENTRY_OPEN = true) ∧
    (hasFlag s.st STATE_EXIT_LOCKED_OPEN = true →
      hasFlag s.st STATE_EXIT_OPEN = true) :=
  ⟨(reachable_stInv cats s h).1, (reachable_stInv cats s h).2.1⟩

/-- Claim C10, witness at the reachable state produced by one loop
iteration at boot with the door sensor reading open, in which the entry
direction is locked-open. -/
theorem c10_witness :
    (hasFlag (run cexCats [StepChoice.loopStep envBoot] initState).st
        STATE_ENTRY_LOCKED_OPEN = true →
      hasFlag (run cexCats [StepChoice.loopStep envBoot] initState).st
        STATE_ENTRY_OPEN = true) ∧
    (hasFlag (run cexCats [StepChoice.loopStep envBoot] initState).st
        STATE_EXIT_LOCKED_OPEN = true →
      hasFlag (run cexCats [StepChoice.loopStep envBoot] initState).st
        STATE_EXIT_OPEN = true) :=
  c10_locked_open_implies_open cexCats _
    (reachable_run cexCats [StepChoice.loopStep envBoot])

end CatFlap
